import Mathlib

/-!
Verification of `edw.djutils` (Django utilities): a shallow embedding of
the permission-checking view machinery (`edw/djutils/protected/views.py`),
the protected file fields and storage (`protected/fields.py`,
`protected/storage.py`), the wild URL reversal (`urlresolvers.py`) and the
management-command progress mixin (`management/mixins.py`), together with
theorems settling the specification's claims about them.

Conventions of the embedding:
* Python objects become Lean structures; mutable attributes become explicit
  state passed in and returned.
* Exceptions become `Option`/sum-like inductives (`none` / a dedicated
  constructor stands for the raised exception).
* Framework internals that the repository merely calls
  (`resolver._reverse_with_prefix`, `django.views.static.serve`,
  `reverse_dict`) are abstracted as function parameters: the theorems are
  about what this repository does with their results.
-/

namespace EdwDjutils

/-! ## `protected/views.py` — `ProtectedViewBase._permission_wrapper`

The metaclass-installed wrapper around `dispatch`:

```python
def wrapper(self, request, *args, **kwargs):
    permissions_checked = getattr(self, '_permissions_checked', False)
    if not permissions_checked:
        self._permissions_checked = True
    if permissions_checked or self.check_permissions(request):
        return dispatch(self, request, *args, **kwargs)
    else:
        return self.permission_denied(request)
```

The instance attribute `_permissions_checked` is the only state touched;
`or` short-circuits, so `check_permissions` runs only when the attribute
was unset.  We record, per invocation, whether `check_permissions` was
evaluated and whether the original `dispatch` ran. -/

/-- Outcome of one invocation of the metaclass's `wrapper`:
the returned value, the new `_permissions_checked` attribute, and which
of the wrapped callables were invoked. -/
structure WrapperOutcome (ρ : Type) where
  result : ρ
  permissionsCheckedAfter : Bool
  checkPermissionsInvoked : Bool
  dispatchInvoked : Bool
  deriving Repr, DecidableEq

/-- `ProtectedViewBase._permission_wrapper`'s inner `wrapper`, as a function
of the instance's `_permissions_checked` attribute (`False` when the
attribute is absent, per `getattr(self, '_permissions_checked', False)`). -/
def permission_wrapper {Req ρ : Type} (check_permissions : Req → Bool)
    (dispatch : Req → ρ) (permission_denied : Req → ρ)
    (permissionsChecked : Bool) (request : Req) : WrapperOutcome ρ :=
  if permissionsChecked then
    -- `permissions_checked or ...` short-circuits: no permission check
    { result := dispatch request
      permissionsCheckedAfter := true
      checkPermissionsInvoked := false
      dispatchInvoked := true }
  else if check_permissions request then
    { result := dispatch request
      permissionsCheckedAfter := true
      checkPermissionsInvoked := true
      dispatchInvoked := true }
  else
    { result := permission_denied request
      permissionsCheckedAfter := true
      checkPermissionsInvoked := true
      dispatchInvoked := false }

/-! ## `ProtectedViewBase.__new__` — selecting and wrapping `dispatch`

```python
try:
    dispatcher = attrs.pop('dispatch')
except KeyError:
    dispatcher = next(base.dispatch for base in bases
                     if hasattr(base, 'dispatch'))
try:
    dispatcher._checks_permissions
except AttributeError:
    dispatcher = cls._permission_wrapper(dispatcher)
    dispatcher._checks_permissions = None
attrs['dispatch'] = dispatcher
```

A dispatch function is modelled by whether it carries the
`_checks_permissions` marker plus a count of how many times
`_permission_wrapper` has been applied to it. -/

/-- A `dispatch` callable as the metaclass sees it: the
`_checks_permissions` marker attribute, and how many layers of
`_permission_wrapper` it carries. -/
structure Dispatcher where
  checks_permissions : Bool
  wrapCount : Nat
  deriving Repr, DecidableEq

/-- Applying `ProtectedViewBase._permission_wrapper` to a dispatcher and
setting `dispatcher._checks_permissions = None` on the result. -/
def wrapDispatcher (d : Dispatcher) : Dispatcher :=
  { checks_permissions := true, wrapCount := d.wrapCount + 1 }

/-- `ProtectedViewBase.__new__`: the `dispatch` the metaclass installs on the
new class.  `attrsDispatch` is the class body's own `dispatch` (if any);
`basesDispatch` lists, per base, that base's `dispatch` (if it has one).
`none` as the result models the `StopIteration` escaping `next(...)` when
no candidate exists. -/
def protectedViewNew (attrsDispatch : Option Dispatcher)
    (basesDispatch : List (Option Dispatcher)) : Option Dispatcher :=
  let dispatcher? :=
    match attrsDispatch with
    | some d => some d
    | none => basesDispatch.findSome? id
  dispatcher?.map fun d =>
    if d.checks_permissions then d else wrapDispatcher d

/-! ## `ProtectedView.check_permissions` and
`ProtectedObjectMixin.check_permissions`

```python
class ProtectedView(...):
    def check_permissions(self, request):
        return all(permission.has_permission(request, self)
                   for permission in self.get_permissions())

class ProtectedObjectMixin(object):
    def check_permissions(self, request):
        if not super().check_permissions(request):
            return False
        obj = self.get_object()
        return all(permission.has_object_permission(request, self, obj)
                   for permission in self.get_permissions())
```

`get_permissions` instantiates `permission_classes` once and caches the
list; we model the cached list directly.  In the mixin's MRO, `super()`
is `ProtectedView`, so the first line runs the class-level check. -/

/-- An instantiated permission object: its two check methods. -/
structure Permission (Req View Obj : Type) where
  has_permission : Req → View → Bool
  has_object_permission : Req → View → Obj → Bool

/-- `ProtectedView.check_permissions`: all permissions'
`has_permission(request, self)`. -/
def checkPermissions {Req View Obj : Type}
    (permissions : List (Permission Req View Obj))
    (self : View) (request : Req) : Bool :=
  permissions.all fun permission => permission.has_permission request self

/-- `ProtectedObjectMixin.check_permissions`: the inherited class-level
check first; on success, all permissions'
`has_object_permission(request, self, obj)` against `self.get_object()`. -/
def objectCheckPermissions {Req View Obj : Type}
    (permissions : List (Permission Req View Obj))
    (self : View) (get_object : Obj) (request : Req) : Bool :=
  if ¬ checkPermissions permissions self request then
    false
  else
    permissions.all fun permission =>
      permission.has_object_permission request self get_object

/-! ## `urlresolvers.py` — `wild_reverse`

The repository-specific part of `wild_reverse` (after the namespace
resolution copied verbatim from Django) is:

```python
try:
    params = resolver.reverse_dict[lookup_view][0][0][1]
    ok_kwargs = dict(((param, kwargs[param]) for param in params))
except KeyError:
    ...
    raise NoReverseMatch(...)
return force_text(iri_to_uri(
    resolver._reverse_with_prefix(view, prefix, **ok_kwargs)))
```

`reverse_dict[lookup_view][0][0][1]` is the parameter-name list of the
route's first pattern; `kwargs[param]` raises `KeyError` for a missing
required parameter, and both `KeyError`s are turned into `NoReverseMatch`.
We abstract the resolver's `reverse_dict` as a partial map from view name
to its required-parameter list, and `_reverse_with_prefix` (framework
code) as a function of the view name and the kwargs actually passed.
`none` models the raised `NoReverseMatch`. -/

/-- `dict(((param, kwargs[param]) for param in params))`: restrict `kwargs`
to the route's required parameters, failing (`KeyError`) when one is
missing. -/
def ok_kwargs : List String → List (String × String) →
    Option (List (String × String))
  | [], _ => some []
  | param :: params, kwargs =>
    match kwargs.lookup param, ok_kwargs params kwargs with
    | some v, some rest => some ((param, v) :: rest)
    | _, _ => none

/-- `wild_reverse(viewname, kwargs)`: look the view up in the resolver's
reverse dictionary, keep exactly the required keyword arguments, and build
the URL from them with the framework's `_reverse_with_prefix`. -/
def wild_reverse (reverse_dict : String → Option (List String))
    (reverse_with_pfx : String → List (String × String) → String)
    (viewname : String) (kwargs : List (String × String)) : Option String :=
  match reverse_dict viewname with
  | none => none
  | some params =>
    match ok_kwargs params kwargs with
    | none => none
    | some ok => some (reverse_with_pfx viewname ok)

/-- `os.path.basename` for the forward-slash paths this repository stores:
everything after the last `/` (the whole string when there is none). -/
def basename (path : String) : String :=
  String.mk (path.data.foldl
    (fun acc c => if c = '/' then [] else acc ++ [c]) [])

/-! ## `protected/storage.py` and `protected/fields.py`

```python
class ProtectedStorage(LazyObject):
    def _setup(self):
        self._wrapped = ProtectedFileSystemStorage()

protected_storage = ProtectedStorage()

class ProtectedFileField(FileField):
    def __init__(self, verbose_name=None, name=None,
                 upload_to='', storage=None, for_view=None, **kwargs):
        if storage is None:
            storage = protected_storage
        self.view = for_view
        super().__init__(...)  # storage deliberately not forwarded
        # work around django bug that evaluates any non-default lazy storage
        self.storage = storage
```

A storage object is identified by which object it is: the module-level
lazy `protected_storage` singleton, or some explicitly supplied storage.
`ProtectedFileSystemStorage.__init__` defaults `location`/`base_url` to
`settings.PROTECTED_ROOT`/`settings.PROTECTED_URL`. -/

/-- A storage object, identified up to Python object identity. -/
inductive Storage where
  | protected_storage
  | custom (id : Nat)
  deriving Repr, DecidableEq

/-- `ProtectedFileSystemStorage.__init__`'s `setdefault` of `location` and
`base_url` from settings. -/
structure StorageConfig where
  location : String
  base_url : String
  deriving Repr, DecidableEq

/-- `ProtectedFileSystemStorage(**kwargs)`: explicit `location`/`base_url`
keyword arguments win; otherwise the `PROTECTED_ROOT`/`PROTECTED_URL`
settings apply.  `protected_storage._setup` calls it with no arguments. -/
def protectedFileSystemStorageInit (protected_root protected_url : String)
    (location : Option String) (base_url : Option String) : StorageConfig :=
  { location := location.getD protected_root
    base_url := base_url.getD protected_url }

/-- The attributes `ProtectedFileField.__init__` establishes that the
claims are about: `self.view` and `self.storage`. -/
structure ProtectedFileFieldAttrs where
  view : Option String
  storage : Storage
  deriving Repr, DecidableEq

/-- `ProtectedFileField.__init__(storage=..., for_view=...)`: with no
explicit storage the module-level `protected_storage` is used, and the
chosen storage is assigned to `self.storage` after the superclass call. -/
def protectedFileFieldInit (storage : Option Storage)
    (for_view : Option String) : ProtectedFileFieldAttrs :=
  { view := for_view
    storage := match storage with
               | none => Storage.protected_storage
               | some s => s }

/-! ### `ProtectedFieldFile.url`

```python
@property
def url(self):
    if self.field.view is not None:
        return wild_reverse(self.field.view,
                            kwargs={'pk': self.instance.pk,
                                    'filename': os.path.basename(self.name),
                                    'filepath': self.name})
    else:
        return getattr(self.instance,
                      'get_%s_url' % self.field.name)()
```

The parent instance is abstracted by its `pk` and by the family of its
`get_<field name>_url()` methods, indexed by field name. -/

/-- `ProtectedFieldFile.url`: reverse through the configured view, or fall
back to the instance's `get_<field name>_url()` accessor.  `none` models a
`NoReverseMatch` escaping the property. -/
def protectedFieldFileUrl
    (reverse_dict : String → Option (List String))
    (reverse_with_pfx : String → List (String × String) → String)
    (field : ProtectedFileFieldAttrs) (field_name : String)
    (instance_pk : String) (name : String)
    (instance_get_url : String → String) : Option String :=
  match field.view with
  | some view =>
      wild_reverse reverse_dict reverse_with_pfx view
        [("pk", instance_pk), ("filename", basename name), ("filepath", name)]
  | none => some (instance_get_url field_name)

/-! ## `protected/views.py` — `ProtectedFileView.get`

```python
def get(self, request, *args, **kwargs):
    if 'filename' in kwargs and 'filepath' in kwargs:
        raise ImproperlyConfigured(...)
    relpath = self.get_file_path()
    if relpath is None or relpath == '':
        return HttpResponseNotFound()
    basename = os.path.basename(relpath)
    if ('filename' in kwargs and kwargs['filename'] != basename) or \
       ('filepath' in kwargs and kwargs['filepath'] != self.get_file_path()):
        return HttpResponseNotFound()
    if settings.DEBUG:
        response = serve_file(request, path=relpath,
                              document_root=self.get_storage().location)
    else:
        response = HttpResponse()
        response['X-Accel-Redirect'] = self.get_file_url()
        del response['Content-Type']
    if self.content_disposition:
        response['Content-Disposition'
                 ] = '{}; filename={};"'.format(self.content_disposition,
                                                basename)
    return response
```

An `HttpResponse` is its body plus its headers.  A bare `HttpResponse()`
carries Django's default `Content-Type` header; `django.views.static.serve`
(framework code) is abstracted as a body tag recording the path and
document root it streams, with whatever `Content-Type` it guessed.
`self.get_file_url()` is `self.get_storage().url(self.get_file_path())`. -/

/-- What produced the response body. -/
inductive RespBody where
  | empty
  | static_serve (path : String) (document_root : String)
  deriving Repr, DecidableEq

/-- An HTTP response: body and headers. -/
structure Resp where
  body : RespBody
  headers : List (String × String)
  deriving Repr, DecidableEq

/-- `response[key] = value`: replace any existing `key` header. -/
def setHeader (headers : List (String × String)) (k v : String) :
    List (String × String) :=
  headers.filter (fun h => h.1 != k) ++ [(k, v)]

/-- `del response[key]`. -/
def delHeader (headers : List (String × String)) (k : String) :
    List (String × String) :=
  headers.filter (fun h => h.1 != k)

/-- Outcome of `ProtectedFileView.get`. -/
inductive GetOutcome where
  | improperly_configured
  | not_found
  | ok (response : Resp)
  deriving Repr, DecidableEq

/-- `'k' in kwargs and kwargs['k'] != expected`, for an optional kwarg. -/
def kwargMismatch (kwarg : Option String) (expected : String) : Bool :=
  match kwarg with
  | some v => v != expected
  | none => false

/-- `ProtectedFileView.get`, as a function of the settings (`DEBUG`), the
storage (`location` and `url`), the framework's content types, the view's
`content_disposition`, `self.get_file_path()` (`none` = Python `None`) and
the optional `filename`/`filepath` view kwargs. -/
def protectedFileViewGet
    (debug : Bool) (storage_location : String) (storage_url : String → String)
    (default_content_type serve_content_type : String)
    (content_disposition : Option String)
    (file_path : Option String)
    (kw_filename kw_filepath : Option String) : GetOutcome :=
  if kw_filename.isSome && kw_filepath.isSome then
    GetOutcome.improperly_configured
  else
    match file_path with
    | none => GetOutcome.not_found
    | some relpath =>
      if relpath = "" then GetOutcome.not_found
      else
        let bn := basename relpath
        if kwargMismatch kw_filename bn ||
           kwargMismatch kw_filepath relpath then
          GetOutcome.not_found
        else
          let response : Resp :=
            if debug then
              { body := RespBody.static_serve relpath storage_location
                headers := [("Content-Type", serve_content_type)] }
            else
              let r : Resp := { body := RespBody.empty
                                headers := [("Content-Type",
                                             default_content_type)] }
              let r := { r with
                headers := setHeader r.headers "X-Accel-Redirect"
                  (storage_url relpath) }
              { r with headers := delHeader r.headers "Content-Type" }
          let response :=
            match content_disposition with
            | some cd =>
              { response with
                headers := setHeader response.headers "Content-Disposition"
                  (cd ++ "; filename=" ++ bn ++ ";\x22") }
            | none => response
          GetOutcome.ok response

/-! ## `management/mixins.py` — `ProgressMixin.progress`

```python
PROGRESS_FORMAT = "{item:%dd}/{total:d} [{percentage:3d}%%]"
PROGRESS_PREFIX = ""
PROGRESS_SUFFIX = ""

def get_progress_format(self, total):
    return self.PROGRESS_FORMAT % len(str(total))

def progress(self, x, total, **kwargs):
    if self.no_progress:
        return
    percentage = int(float(x) / total * 100)
    out = self.get_progress_format(total).format(
        item=x, total=total, percentage=percentage, **kwargs)
    sys.stderr.write("\r%s%s%s" % (
        self.PROGRESS_PREFIX, out, self.PROGRESS_SUFFIX))
    if percentage == 100:
        sys.stderr.write('\n')
```

The return value of the embedding is the list of strings written to
`stderr`, in order.  `int(float(x) / total * 100)` is idealised as the
exact `x * 100 / total` on naturals (floor of the true quotient); CPython
evaluates the same expression in double precision, and the theorems use
the identical idealisation on both the code side and the claim side.  A
call with `total = 0` raises `ZeroDivisionError` in Python, so the
theorems assume `0 < total`. -/

/-- Python's `{value:Nd}` formatting: decimal digits, right-aligned in a
field of `N` spaces. -/
def padLeft (value : Nat) (width : Nat) : String :=
  String.mk (List.replicate (width - (toString value).data.length) ' ') ++
    toString value

/-- `self.get_progress_format(total).format(item=x, total=total,
percentage=percentage)` with the class's `PROGRESS_FORMAT`:
`"{item:Nd}/{total:d} [{percentage:3d}%]"` where `N = len(str(total))`. -/
def progressFormatted (x total percentage : Nat) : String :=
  padLeft x (toString total).data.length ++ "/" ++ toString total ++
    " [" ++ padLeft percentage 3 ++ "%]"

/-- `ProgressMixin.progress(x, total)`: the strings written to `stderr`,
in order.  `no_progress` is the suppression flag `--no-progress` sets. -/
def progress (no_progress : Bool) (progress_pfx progress_sfx : String)
    (x total : Nat) : List String :=
  if no_progress then []
  else
    let percentage := x * 100 / total
    let out := progressFormatted x total percentage
    let line := "\r" ++ progress_pfx ++ out ++ progress_sfx
    if percentage = 100 then [line, "\n"] else [line]

end EdwDjutils

namespace EdwDjutils

/-- C1 — For a `ProtectedViewBase`-built class, the installed `dispatch`
first evaluates `check_permissions(request)` — unless permissions were
already checked on this instance, in which case the original dispatch runs
without any check: on a fresh instance a truthy check runs the original
dispatch and returns its result, while a falsy check skips the original
dispatch entirely and returns `permission_denied(request)`. -/
theorem c1_wrapper_gates_dispatch {Req ρ : Type}
    (check_permissions : Req → Bool) (dispatch : Req → ρ)
    (permission_denied : Req → ρ) (request : Req) :
    (let o := permission_wrapper check_permissions dispatch permission_denied
        false request
     o.checkPermissionsInvoked = true ∧
     o.dispatchInvoked = check_permissions request ∧
     o.result = (if check_permissions request then dispatch request
                 else permission_denied request)) ∧
    (let o := permission_wrapper check_permissions dispatch permission_denied
        true request
     o.checkPermissionsInvoked = false ∧
     o.dispatchInvoked = true ∧
     o.result = dispatch request) := by
  by_cases h : check_permissions request
  · simp [permission_wrapper, h]
  · simp [permission_wrapper, h]

/-- C9 — Once the wrapped `dispatch` has been invoked once on an instance
(even if that invocation's permission check failed and was denied), any
subsequent invocation on the same instance runs the original dispatch
directly, without invoking `check_permissions` again: the first call always
leaves `_permissions_checked` set, and a call on an instance with the flag
set never runs the check and always dispatches. -/
theorem c9_second_dispatch_skips_check {Req ρ : Type}
    (check_permissions : Req → Bool) (dispatch : Req → ρ)
    (permission_denied : Req → ρ)
    (checked₀ : Bool) (request₁ request₂ : Req) :
    (permission_wrapper check_permissions dispatch permission_denied
        checked₀ request₁).permissionsCheckedAfter = true ∧
    (let o₂ := permission_wrapper check_permissions dispatch permission_denied
        (permission_wrapper check_permissions dispatch permission_denied
          checked₀ request₁).permissionsCheckedAfter request₂
     o₂.checkPermissionsInvoked = false ∧
     o₂.dispatchInvoked = true ∧
     o₂.result = dispatch request₂) := by
  by_cases h₀ : checked₀ <;> by_cases h₁ : check_permissions request₁ <;>
    simp [permission_wrapper, h₀, h₁]

/-- C10 — The metaclass wrapping of `dispatch` is idempotent: a dispatcher
already carrying the `_checks_permissions` marker is installed unchanged,
every installed dispatcher carries the marker, and along any chain of
classes each dispatch is wrapped at most once (the wrap count grows by at
most one over the whole chain, and re-installing an installed dispatcher —
as a subclass inheriting it does — changes nothing). -/
theorem c10_wrapping_idempotent
    (d : Dispatcher) (basesDispatch basesDispatch' : List (Option Dispatcher)) :
    (d.checks_permissions = true →
      protectedViewNew (some d) basesDispatch = some d) ∧
    (basesDispatch.findSome? id = some d → d.checks_permissions = true →
      protectedViewNew none basesDispatch = some d) ∧
    (∀ d', protectedViewNew (some d) basesDispatch = some d' →
      d'.checks_permissions = true ∧
      d'.wrapCount ≤ d.wrapCount + 1 ∧
      protectedViewNew (some d') basesDispatch' = some d' ∧
      protectedViewNew none (some d' :: basesDispatch') = some d') := by
  refine ⟨?_, ?_, ?_⟩
  · intro h
    simp [protectedViewNew, h]
  · intro hfind h
    simp [protectedViewNew, hfind, h]
  · intro d' h
    by_cases hc : d.checks_permissions
    · simp [protectedViewNew, hc] at h
      subst h
      simp [protectedViewNew, hc, List.findSome?]
    · simp [protectedViewNew, hc] at h
      subst h
      simp [protectedViewNew, wrapDispatcher, List.findSome?]

/-- Witness for C10: installing a fresh dispatcher wraps it once, and the
result is a fixed point of installation. -/
theorem c10_wrapping_idempotent_witness :
    ({ checks_permissions := true, wrapCount := 1 } : Dispatcher
      ).checks_permissions = true ∧
    protectedViewNew (some { checks_permissions := true, wrapCount := 1 }) []
      = some { checks_permissions := true, wrapCount := 1 } ∧
    ({ checks_permissions := true, wrapCount := 1 } : Dispatcher).wrapCount ≤
      ({ checks_permissions := false, wrapCount := 0 } : Dispatcher).wrapCount + 1 :=
  have h := c10_wrapping_idempotent
    { checks_permissions := false, wrapCount := 0 } [] []
  have h2 := h.2.2 { checks_permissions := true, wrapCount := 1 } (by decide)
  ⟨h2.1, h2.2.2.1, h2.2.1⟩

/-- C2 — For a view using `ProtectedObjectMixin`, `check_permissions`
returns `True` exactly when the inherited class-level check returns `True`
and every instantiated permission's `has_object_permission(request, view,
obj)` returns `True` for `obj = self.get_object()`; in particular a `False`
inherited check forces a `False` result. -/
theorem c2_object_check_characterisation {Req View Obj : Type}
    (permissions : List (Permission Req View Obj))
    (self : View) (get_object : Obj) (request : Req) :
    (objectCheckPermissions permissions self get_object request = true ↔
      (checkPermissions permissions self request = true ∧
       ∀ permission ∈ permissions,
         permission.has_object_permission request self get_object = true)) ∧
    (checkPermissions permissions self request = false →
      objectCheckPermissions permissions self get_object request = false) := by
  constructor
  · by_cases h : checkPermissions permissions self request
    · simp [objectCheckPermissions, h, List.all_eq_true]
    · simp [objectCheckPermissions, h]
  · intro h
    simp [objectCheckPermissions, h]

/-- Witness for C2 at a concrete permission list: one permission granting
`has_permission` only on request `1` and `has_object_permission` only on
object `2`. -/
theorem c2_object_check_characterisation_witness :
    (objectCheckPermissions
        [{ has_permission := fun r (_ : Nat) => r == 1
           has_object_permission := fun _ _ o => o == 2 }]
        (0 : Nat) (2 : Nat) (1 : Nat) = true ↔
      (checkPermissions
          [{ has_permission := fun r (_ : Nat) => r == 1
             has_object_permission := fun _ _ o => o == 2 }]
          (0 : Nat) (1 : Nat) = true ∧
       ∀ permission ∈
          [({ has_permission := fun r (_ : Nat) => r == 1
              has_object_permission := fun _ _ o => o == 2 } :
            Permission Nat Nat Nat)],
         permission.has_object_permission 1 0 2 = true)) ∧
    (checkPermissions
        [{ has_permission := fun r (_ : Nat) => r == 1
           has_object_permission := fun _ _ o => o == 2 }]
        (0 : Nat) (1 : Nat) = false →
      objectCheckPermissions
        [{ has_permission := fun r (_ : Nat) => r == 1
           has_object_permission := fun _ _ o => o == 2 }]
        (0 : Nat) (2 : Nat) (1 : Nat) = false) :=
  c2_object_check_characterisation
    [{ has_permission := fun r (_ : Nat) => r == 1
       has_object_permission := fun _ _ o => o == 2 }] 0 2 1

/-- When every required parameter occurs in `kwargs`, restricting `kwargs`
to the parameter list keeps exactly the required parameters, in order. -/
theorem ok_kwargs_of_superset (params : List String)
    (kwargs : List (String × String))
    (h : ∀ p ∈ params, (kwargs.lookup p).isSome = true) :
    ok_kwargs params kwargs =
      some (params.map fun p => (p, (kwargs.lookup p).getD "")) := by
  induction params with
  | nil => simp [ok_kwargs]
  | cons p ps ih =>
    have hp : (kwargs.lookup p).isSome = true := h p (by simp)
    obtain ⟨v, hv⟩ := Option.isSome_iff_exists.mp hp
    have hrest := ih fun q hq => h q (by simp [hq])
    simp [ok_kwargs, hv, hrest]

/-- A kwargs entry whose key is not a required parameter is invisible to
the restriction. -/
theorem ok_kwargs_cons_irrelevant (params : List String)
    (kwargs : List (String × String)) (k v : String)
    (hk : k ∉ params) :
    ok_kwargs params ((k, v) :: kwargs) = ok_kwargs params kwargs := by
  induction params with
  | nil => simp [ok_kwargs]
  | cons p ps ih =>
    have hpk : p ≠ k := fun h => hk (by simp [h])
    have hlk : ((k, v) :: kwargs).lookup p = kwargs.lookup p := by
      simp [List.lookup, beq_false_of_ne hpk]
    have hrest := ih fun h => hk (List.mem_cons_of_mem _ h)
    simp [ok_kwargs, hlk, hrest]

/-- C3 — For a named route and a kwargs mapping whose keys cover the
route's required parameters, `wild_reverse` succeeds and builds the URL
from exactly the required parameters (each paired with its kwargs value);
prepending an extra, unused keyword argument leaves the result
unchanged. -/
theorem c3_wild_reverse_superset
    (reverse_dict : String → Option (List String))
    (reverse_with_pfx : String → List (String × String) → String)
    (viewname : String) (kwargs : List (String × String))
    (params : List String) (k v : String)
    (hroute : reverse_dict viewname = some params)
    (hsuper : ∀ p ∈ params, (kwargs.lookup p).isSome = true)
    (hk : k ∉ params) :
    wild_reverse reverse_dict reverse_with_pfx viewname kwargs =
      some (reverse_with_pfx viewname
        (params.map fun p => (p, (kwargs.lookup p).getD ""))) ∧
    wild_reverse reverse_dict reverse_with_pfx viewname ((k, v) :: kwargs) =
      wild_reverse reverse_dict reverse_with_pfx viewname kwargs := by
  constructor
  · simp [wild_reverse, hroute, ok_kwargs_of_superset params kwargs hsuper]
  · simp [wild_reverse, hroute, ok_kwargs_cons_irrelevant params kwargs k v hk]

/-- Witness for C3: a route `"detail"` requiring `pk` and `filename`,
reversed with an additional unused `filepath` keyword argument. -/
theorem c3_wild_reverse_superset_witness :
    ((fun n => if n = "detail" then some ["pk", "filename"] else none) "detail"
      = some ["pk", "filename"]) ∧
    (∀ p ∈ ["pk", "filename"],
      ([("pk", "7"), ("filename", "a.txt")].lookup p).isSome = true) ∧
    ("filepath" ∉ ["pk", "filename"]) ∧
    (wild_reverse (fun n => if n = "detail" then some ["pk", "filename"] else none)
        (fun n ok => n ++ (ok.map fun q => "/" ++ q.2).foldl (· ++ ·) "")
        "detail" [("pk", "7"), ("filename", "a.txt")] =
      some ((fun (n : String) (ok : List (String × String)) =>
          n ++ (ok.map fun q => "/" ++ q.2).foldl (· ++ ·) "") "detail"
        (["pk", "filename"].map fun p =>
          (p, ([("pk", "7"), ("filename", "a.txt")].lookup p).getD "")))) ∧
    (wild_reverse (fun n => if n = "detail" then some ["pk", "filename"] else none)
        (fun n ok => n ++ (ok.map fun q => "/" ++ q.2).foldl (· ++ ·) "")
        "detail" (("filepath", "x/a.txt") :: [("pk", "7"), ("filename", "a.txt")]) =
      wild_reverse (fun n => if n = "detail" then some ["pk", "filename"] else none)
        (fun n ok => n ++ (ok.map fun q => "/" ++ q.2).foldl (· ++ ·) "")
        "detail" [("pk", "7"), ("filename", "a.txt")]) := by
  refine ⟨by decide, by decide, by decide, ?_⟩
  exact (c3_wild_reverse_superset
    (fun n => if n = "detail" then some ["pk", "filename"] else none)
    (fun n ok => n ++ (ok.map fun q => "/" ++ q.2).foldl (· ++ ·) "")
    "detail" [("pk", "7"), ("filename", "a.txt")] ["pk", "filename"]
    "filepath" "x/a.txt" (by decide) (by decide) (by decide))

/-- C5 — A `ProtectedFieldFile`'s `url` is the `wild_reverse` of the
field's configured view name with kwargs `pk` (the parent instance's
primary key), `filename` (the basename of the stored name) and `filepath`
(the stored name) when the field was given a view name; otherwise it is
the result of the parent instance's `get_<field name>_url()` method. -/
theorem c5_field_file_url
    (reverse_dict : String → Option (List String))
    (reverse_with_pfx : String → List (String × String) → String)
    (view : String) (storage : Storage) (field_name : String)
    (instance_pk : String) (name : String)
    (instance_get_url : String → String) :
    protectedFieldFileUrl reverse_dict reverse_with_pfx
        { view := some view, storage := storage } field_name
        instance_pk name instance_get_url =
      wild_reverse reverse_dict reverse_with_pfx view
        [("pk", instance_pk), ("filename", basename name),
         ("filepath", name)] ∧
    protectedFieldFileUrl reverse_dict reverse_with_pfx
        { view := none, storage := storage } field_name
        instance_pk name instance_get_url =
      some (instance_get_url field_name) := by
  exact ⟨rfl, rfl⟩

/-- C6 — A `ProtectedFileField` constructed without an explicit storage
gets the module-level `protected_storage` object as its `storage`
attribute; one constructed with an explicit storage keeps exactly that
storage. -/
theorem c6_field_storage_default (explicit : Storage)
    (for_view : Option String) :
    (protectedFileFieldInit none for_view).storage =
      Storage.protected_storage ∧
    (protectedFileFieldInit (some explicit) for_view).storage = explicit := by
  exact ⟨rfl, rfl⟩

/-- C4 — On a `ProtectedFileView` GET that passes the filename/filepath
validation: with `settings.DEBUG` the response streams the file through
the framework's static serve helper rooted at the storage's location;
otherwise the response is a plain `HttpResponse` whose `X-Accel-Redirect`
header is the storage URL of the file path and whose `Content-Type`
header has been removed. -/
theorem c4_file_view_debug_vs_accel
    (storage_location : String) (storage_url : String → String)
    (default_content_type serve_content_type : String)
    (content_disposition : Option String)
    (relpath : String) (kw_filename kw_filepath : Option String)
    (hkw : kw_filename.isSome = false ∨ kw_filepath.isSome = false)
    (hne : relpath ≠ "")
    (hfn : ∀ f, kw_filename = some f → f = basename relpath)
    (hfp : ∀ fp, kw_filepath = some fp → fp = relpath) :
    (∃ r, protectedFileViewGet true storage_location storage_url
        default_content_type serve_content_type content_disposition
        (some relpath) kw_filename kw_filepath = GetOutcome.ok r ∧
      r.body = RespBody.static_serve relpath storage_location) ∧
    (∃ r, protectedFileViewGet false storage_location storage_url
        default_content_type serve_content_type content_disposition
        (some relpath) kw_filename kw_filepath = GetOutcome.ok r ∧
      r.body = RespBody.empty ∧
      r.headers.lookup "X-Accel-Redirect" = some (storage_url relpath) ∧
      r.headers.lookup "Content-Type" = none) := by
  have hmm : kwargMismatch kw_filename (basename relpath) = false := by
    cases kw_filename with
    | none => rfl
    | some f => simp [kwargMismatch, hfn f rfl]
  have hmp : kwargMismatch kw_filepath relpath = false := by
    cases kw_filepath with
    | none => rfl
    | some fp => simp [kwargMismatch, hfp fp rfl]
  have hand : (kw_filename.isSome && kw_filepath.isSome) = false := by
    rcases hkw with h | h <;> simp [h]
  cases content_disposition with
  | none =>
    refine ⟨⟨{ body := RespBody.static_serve relpath storage_location
               headers := [("Content-Type", serve_content_type)] },
             ?_, rfl⟩,
            ⟨{ body := RespBody.empty
               headers := [("X-Accel-Redirect", storage_url relpath)] },
             ?_, rfl, ?_, ?_⟩⟩ <;>
      simp [protectedFileViewGet, hand, hne, hmm, hmp, setHeader, delHeader,
        List.lookup]
  | some cd =>
    refine ⟨⟨{ body := RespBody.static_serve relpath storage_location
               headers := [("Content-Type", serve_content_type),
                           ("Content-Disposition",
                            cd ++ "; filename=" ++ basename relpath ++
                              ";\x22")] },
             ?_, rfl⟩,
            ⟨{ body := RespBody.empty
               headers := [("X-Accel-Redirect", storage_url relpath),
                           ("Content-Disposition",
                            cd ++ "; filename=" ++ basename relpath ++
                              ";\x22")] },
             ?_, rfl, ?_, ?_⟩⟩ <;>
      simp [protectedFileViewGet, hand, hne, hmm, hmp, setHeader, delHeader,
        List.lookup]

/-- Witness for C4 at a concrete file `media/a.txt`, with a `filename`
kwarg matching the basename and no `filepath` kwarg. -/
theorem c4_file_view_debug_vs_accel_witness :
    ((some "a.txt" : Option String).isSome = false ∨
      (none : Option String).isSome = false) ∧
    ("media/a.txt" ≠ "") ∧
    (∃ r, protectedFileViewGet false "/srv/protected"
        (fun p => "/protected/" ++ p) "text/html" "text/plain" none
        (some "media/a.txt") (some "a.txt") none = GetOutcome.ok r ∧
      r.body = RespBody.empty ∧
      r.headers.lookup "X-Accel-Redirect" =
        some ((fun p => "/protected/" ++ p) "media/a.txt") ∧
      r.headers.lookup "Content-Type" = none) :=
  ⟨Or.inr rfl, by decide,
    (c4_file_view_debug_vs_accel "/srv/protected"
      (fun p => "/protected/" ++ p) "text/html" "text/plain" none
      "media/a.txt" (some "a.txt") none (Or.inr rfl) (by decide)
      (fun f hf => by cases hf; decide) (fun fp hfp => by cases hfp)).2⟩

/-- C8 — `ProtectedFileView.get` error handling: both `filename` and
`filepath` kwargs together raise `ImproperlyConfigured`; otherwise a
missing or empty file path, a `filename` kwarg differing from the path's
basename, or a `filepath` kwarg differing from the file path each yield
`HttpResponseNotFound` without serving anything. -/
theorem c8_file_view_error_paths
    (debug : Bool) (storage_location : String) (storage_url : String → String)
    (default_content_type serve_content_type : String)
    (content_disposition : Option String)
    (file_path : Option String) (kw_filename kw_filepath : Option String) :
    ((kw_filename.isSome && kw_filepath.isSome) = true →
      protectedFileViewGet debug storage_location storage_url
        default_content_type serve_content_type content_disposition
        file_path kw_filename kw_filepath =
          GetOutcome.improperly_configured) ∧
    ((kw_filename.isSome && kw_filepath.isSome) = false →
      (file_path = none →
        protectedFileViewGet debug storage_location storage_url
          default_content_type serve_content_type content_disposition
          file_path kw_filename kw_filepath = GetOutcome.not_found) ∧
      (file_path = some "" →
        protectedFileViewGet debug storage_location storage_url
          default_content_type serve_content_type content_disposition
          file_path kw_filename kw_filepath = GetOutcome.not_found) ∧
      (∀ relpath f, file_path = some relpath → kw_filename = some f →
        f ≠ basename relpath →
        protectedFileViewGet debug storage_location storage_url
          default_content_type serve_content_type content_disposition
          file_path kw_filename kw_filepath = GetOutcome.not_found) ∧
      (∀ relpath fp, file_path = some relpath → kw_filepath = some fp →
        fp ≠ relpath →
        protectedFileViewGet debug storage_location storage_url
          default_content_type serve_content_type content_disposition
          file_path kw_filename kw_filepath = GetOutcome.not_found)) := by
  constructor
  · intro h
    simp [protectedFileViewGet, h]
  · intro h
    refine ⟨?_, ?_, ?_, ?_⟩
    · intro hp
      subst hp
      simp [protectedFileViewGet, h]
    · intro hp
      subst hp
      simp [protectedFileViewGet, h]
    · intro relpath f hp hf hne
      subst hp
      subst hf
      have hkp : kw_filepath = none := by
        cases kw_filepath with
        | none => rfl
        | some fp => simp at h
      subst hkp
      by_cases he : relpath = ""
      · simp [protectedFileViewGet, he]
      · simp [protectedFileViewGet, kwargMismatch, he, hne]
    · intro relpath fp hp hf hne
      subst hp
      subst hf
      have hkn : kw_filename = none := by
        cases kw_filename with
        | none => rfl
        | some f => simp at h
      subst hkn
      by_cases he : relpath = ""
      · simp [protectedFileViewGet, he]
      · simp [protectedFileViewGet, kwargMismatch, he, hne]

/-- Witness for C8: both kwargs at once on one view, and an empty file
path on another, at concrete inputs. -/
theorem c8_file_view_error_paths_witness :
    (((some "a.txt" : Option String).isSome &&
      (some "media/a.txt" : Option String).isSome) = true ∧
     protectedFileViewGet true "/srv/protected" (fun p => p)
       "text/html" "text/plain" none (some "media/a.txt")
       (some "a.txt") (some "media/a.txt") =
         GetOutcome.improperly_configured) ∧
    (((none : Option String).isSome &&
      (none : Option String).isSome) = false ∧
     protectedFileViewGet true "/srv/protected" (fun p => p)
       "text/html" "text/plain" none none none none =
         GetOutcome.not_found) :=
  ⟨⟨rfl, (c8_file_view_error_paths true "/srv/protected" (fun p => p)
      "text/html" "text/plain" none (some "media/a.txt")
      (some "a.txt") (some "media/a.txt")).1 rfl⟩,
   ⟨rfl, ((c8_file_view_error_paths true "/srv/protected" (fun p => p)
      "text/html" "text/plain" none none none none).2 rfl).1 rfl⟩⟩

/-- C7 — With the suppression flag set, `progress(x, total)` writes
nothing to the error stream; with it unset, a single string starting with
a carriage return and containing the decimal percentage
`int(x / total * 100)` is written, followed by a newline exactly when that
percentage equals 100. -/
theorem c7_progress_writes (progress_pfx progress_sfx : String)
    (x total : Nat) (htotal : 0 < total) :
    progress true progress_pfx progress_sfx x total = [] ∧
    (∃ line,
      progress false progress_pfx progress_sfx x total =
        (if x * 100 / total = 100 then [line, "\n"] else [line]) ∧
      (∃ rest, line = "\r" ++ rest) ∧
      (∃ s t, line = s ++ toString (x * 100 / total) ++ t)) := by
  clear htotal
  refine ⟨rfl, ⟨"\r" ++ progress_pfx ++
    progressFormatted x total (x * 100 / total) ++ progress_sfx,
    rfl, ?_, ?_⟩⟩
  · refine ⟨progress_pfx ++ (progressFormatted x total (x * 100 / total) ++
      progress_sfx), ?_⟩
    apply String.ext
    simp [String.data_append]
  · refine ⟨"\r" ++ progress_pfx ++
      (padLeft x (toString total).data.length ++ "/" ++ toString total ++
        " [" ++ String.mk (List.replicate
          (3 - (toString (x * 100 / total)).data.length) ' ')),
      "%]" ++ progress_sfx, ?_⟩
    apply String.ext
    simp [String.data_append, progressFormatted, padLeft]

/-- Witness for C7: `progress(2, 4)` with the default empty prefix and
suffix writes a single 50%-line. -/
theorem c7_progress_writes_witness :
    0 < 4 ∧
    (progress true "" "" 2 4 = [] ∧
     (∃ line,
       progress false "" "" 2 4 =
         (if 2 * 100 / 4 = 100 then [line, "\n"] else [line]) ∧
       (∃ rest, line = "\r" ++ rest) ∧
       (∃ s t, line = s ++ toString (2 * 100 / 4) ++ t))) :=
  ⟨by decide, c7_progress_writes "" "" 2 4 (by decide)⟩

end EdwDjutils
